import Mathlib

/-!
Shallow embedding of the resumable-upload middleware in `src/main.go`
(package caddy_resumable_uploads).

Modelling conventions:
* The filesystem under `TmpDir` is modelled as an association list from
  upload id to its two durable artifacts: the byte file's contents and
  whether the `<id>.incomplete` sidecar marker file is present.
* HTTP headers are modelled as `String` values; Go's `r.Header.Get`
  returns the empty string when a header is absent, so an absent header
  is the empty string here as well.
* IO failures (disk errors, permissions) are outside the model; only the
  existence-dependent behaviour of `os.OpenFile`, `os.Stat`, `os.Remove`
  and `io.Copy` is embedded.
-/

/-- One upload's durable state: the accumulated bytes of the byte file,
and whether the `.incomplete` sidecar marker file exists. -/
structure Upload where
  bytes : List Nat
  markerPresent : Bool
deriving DecidableEq, Repr

/-- The storage directory: an association list from upload id to its state. -/
abbrev Store := List (String × Upload)

/-- Look an upload up by id. -/
def Store.find : Store → String → Option Upload
  | [], _ => none
  | (k, v) :: rest, id => if k = id then some v else Store.find rest id

/-- Replace (or insert) the upload stored under `id`. -/
def Store.set : Store → String → Upload → Store
  | [], id, u => [(id, u)]
  | (k, v) :: rest, id, u =>
      if k = id then (id, u) :: rest else (k, v) :: Store.set rest id u

/-- `InteropVersion` from `src/main.go:21`. -/
def InteropVersion : String := "4"

/-- Digit run of Go's `strconv.Atoi`: at least one character, all ASCII
digits, evaluated base 10. -/
def parseDigits (cs : List Char) : Option Nat :=
  if cs = [] then none
  else if cs.all Char.isDigit then
    some (cs.foldl (fun a c => 10 * a + (c.toNat - 48)) 0)
  else none

/-- Go's `strconv.Atoi` on a 64-bit platform: optional sign followed by
digits; values outside the `int64` range are a range error (`none`). -/
def Atoi (s : String) : Option Int :=
  match s.toList with
  | '-' :: rest =>
      match parseDigits rest with
      | none => none
      | some n => if n ≤ 2 ^ 63 then some (-(n : Int)) else none
  | '+' :: rest =>
      match parseDigits rest with
      | none => none
      | some n => if n ≤ 2 ^ 63 - 1 then some (n : Int) else none
  | cs =>
      match parseDigits cs with
      | none => none
      | some n => if n ≤ 2 ^ 63 - 1 then some (n : Int) else none

/-- `getUploadComplete` (src/main.go:291-297): the `Upload-Complete`
request header equals `?1`. -/
def getUploadComplete (uploadCompleteHeader : String) : Bool :=
  uploadCompleteHeader == "?1"

/-- `getUploadOffset` (src/main.go:299-305): `strconv.Atoi` on the
`Upload-Offset` request header; `none` means the `ok=false` path. -/
def getUploadOffset (uploadOffsetHeader : String) : Option Int :=
  Atoi uploadOffsetHeader

/-- `getUrl` (src/main.go:307-317). -/
def getUrl (tls : Bool) (host path : String) : String :=
  let protocol := if tls then "https" else "http"
  let fullPath := if path.endsWith "/" then path else path ++ "/"
  protocol ++ "://" ++ host ++ fullPath

/-- `loadUpload` (src/main.go:253-280), error-free paths: returns
`(exists, isComplete, offset)`. The byte file is opened and its length
read via `Seek(0, SeekEnd)`; `isComplete` is true exactly when `os.Stat`
on the `.incomplete` marker reports `ErrNotExist`. -/
def loadUpload (store : Store) (id : String) : Bool × Bool × Int :=
  match Store.find store id with
  | none => (false, false, 0)
  | some u => (true, !u.markerPresent, (u.bytes.length : Int))

/-- The protocol outcome of one PATCH append request. -/
inductive AppendOutcome
  | notFound
  | validationError
  | offsetConflict
  | alreadyComplete
  | appended
deriving DecidableEq, Repr

/-- The observable response of `UploadAppendingHandler`: final status
code, protocol outcome, the `Upload-Complete` / `Upload-Offset` response
headers (`none` when `setUploadHeaders` was not called on that path),
and whether `loadUpload` opened the byte storage during the request. -/
structure AppendResponse where
  status : Nat
  outcome : AppendOutcome
  headerComplete : Option Bool
  headerOffset : Option Int
  storageLoaded : Bool
deriving DecidableEq, Repr

/-- `UploadAppendingHandler` (src/main.go:196-251). The handler calls
`loadUpload` first (line 200), before any header validation, so
`storageLoaded` is true on every path. Note line 211 assigns
`complete_client := !getUploadComplete(r)` — the negation is in the
source. Returns the response together with the updated store. -/
def UploadAppendingHandler (store : Store) (id : String)
    (uploadOffsetHeader uploadCompleteHeader : String) (body : List Nat) :
    AppendResponse × Store :=
  match Store.find store id with
  | none =>
      ({ status := 404, outcome := .notFound, headerComplete := none,
         headerOffset := none, storageLoaded := true }, store)
  | some u =>
      let complete_server := !u.markerPresent
      let offset_server : Int := u.bytes.length
      let complete_client := !getUploadComplete uploadCompleteHeader
      match getUploadOffset uploadOffsetHeader with
      | none =>
          ({ status := 400, outcome := .validationError, headerComplete := none,
             headerOffset := none, storageLoaded := true }, store)
      | some offset_client =>
          if offset_server ≠ offset_client then
            ({ status := 409, outcome := .offsetConflict,
               headerComplete := some complete_server,
               headerOffset := some offset_server, storageLoaded := true }, store)
          else if complete_server then
            ({ status := 200, outcome := .alreadyComplete,
               headerComplete := some complete_server,
               headerOffset := some offset_server, storageLoaded := true }, store)
          else
            let newOffset := offset_server + (body.length : Int)
            let newComplete := if complete_client then true else complete_server
            let newMarker := if complete_client then false else u.markerPresent
            ({ status := 201, outcome := .appended,
               headerComplete := some newComplete,
               headerOffset := some newOffset, storageLoaded := true },
             Store.set store id { bytes := u.bytes ++ body, markerPresent := newMarker })

/-- The observable response of `UploadCreationHandler`: final status
code (the handler never calls `WriteHeader` on its success path, so Go
answers with the default `200 OK`), whether the interim `104` response
was sent, and the `Location` / `Upload-Complete` / `Upload-Offset`
response headers. -/
structure CreateResponse where
  status : Nat
  interim104 : Bool
  location : String
  headerComplete : Bool
  headerOffset : Int
deriving DecidableEq, Repr

/-- `UploadCreationHandler` (src/main.go:115-172). `os.OpenFile` with
`O_WRONLY|O_CREATE` (no `O_EXCL`, line 124) opens existing byte storage
when `uploadId` is already present, and `io.Copy` then writes from file
position 0, overwriting a prefix of the old contents; the `.incomplete`
marker file is (re)written unconditionally (line 131). The offset is
read back with `Seek(0, SeekEnd)` after the copy, and the marker is
removed again when the client sent `Upload-Complete: ?1`. -/
def UploadCreationHandler (store : Store) (uploadId : String) (tls : Bool)
    (host path interopHeader uploadCompleteHeader : String) (body : List Nat) :
    CreateResponse × Store :=
  let oldBytes := match Store.find store uploadId with
    | none => ([] : List Nat)
    | some u => u.bytes
  let newBytes := body ++ oldBytes.drop body.length
  let offset : Int := newBytes.length
  let isComplete := getUploadComplete uploadCompleteHeader
  ({ status := 200,
     interim104 := interopHeader == InteropVersion,
     location := getUrl tls host path ++ uploadId,
     headerComplete := isComplete,
     headerOffset := offset },
   Store.set store uploadId { bytes := newBytes, markerPresent := !isComplete })

theorem Store.find_set_self (s : Store) (id : String) (u : Upload) :
    Store.find (Store.set s id u) id = some u := by
  induction s with
  | nil => simp [Store.set, Store.find]
  | cons kv rest ih =>
    obtain ⟨k, v⟩ := kv
    by_cases h : k = id
    · simp [Store.set, Store.find, h]
    · simp [Store.set, Store.find, h, ih]

/-- Claim C1: the claim says the Appended outcome removes the marker and
reports complete=true exactly when the client sent `Upload-Complete: ?1`.
The code inverts the signal (`complete_client := !getUploadComplete(r)`,
src/main.go:211): on an existing, incomplete, empty upload, a PATCH with
matching offset 0 and NO `Upload-Complete` header removes the marker and
reports complete=true, while the same PATCH WITH `Upload-Complete: ?1`
keeps the marker and reports complete=false. -/
theorem append_complete_signal_inverted :
    getUploadComplete "" = false ∧
    (UploadAppendingHandler [("u1", ⟨[], true⟩)] "u1" "0" "" [97, 98, 99]).1.outcome
      = .appended ∧
    (UploadAppendingHandler [("u1", ⟨[], true⟩)] "u1" "0" "" [97, 98, 99]).1.headerComplete
      = some true ∧
    Store.find (UploadAppendingHandler [("u1", ⟨[], true⟩)] "u1" "0" "" [97, 98, 99]).2 "u1"
      = some ⟨[97, 98, 99], false⟩ ∧
    getUploadComplete "?1" = true ∧
    (UploadAppendingHandler [("u1", ⟨[], true⟩)] "u1" "0" "?1" [97, 98, 99]).1.headerComplete
      = some false ∧
    Store.find (UploadAppendingHandler [("u1", ⟨[], true⟩)] "u1" "0" "?1" [97, 98, 99]).2 "u1"
      = some ⟨[97, 98, 99], true⟩ := by
  decide

/-- Claim C2: the append state machine checks NotFound first, then (for a
parseable client offset) OffsetConflict, then AlreadyComplete, and only
then appends; the first matching outcome wins. -/
theorem appendOutcome_order (store : Store) (id oh ch : String) (body : List Nat) :
    (Store.find store id = none →
      (UploadAppendingHandler store id oh ch body).1.outcome = .notFound) ∧
    (∀ u c, Store.find store id = some u → getUploadOffset oh = some c →
      (UploadAppendingHandler store id oh ch body).1.outcome =
        (if (u.bytes.length : Int) ≠ c then .offsetConflict
         else if !u.markerPresent then .alreadyComplete
         else .appended)) := by
  constructor
  · intro h
    simp [UploadAppendingHandler, h]
  · intro u c hu hc
    simp only [UploadAppendingHandler, hu, hc]
    by_cases hne : (u.bytes.length : Int) ≠ c
    · simp [hne]
    · by_cases hm : u.markerPresent
      · simp [hne, hm]
      · simp [hne, hm]

/-- Claim C2 witness: an append to an existing, already-complete upload
(2 bytes stored, marker absent) with stale client offset 0 yields
OffsetConflict, not AlreadyComplete. -/
theorem appendOutcome_order_witness :
    (UploadAppendingHandler [("d1", ⟨[1, 2], false⟩)] "d1" "0" "" []).1.outcome
      = .offsetConflict := by
  have h := (appendOutcome_order [("d1", ⟨[1, 2], false⟩)] "d1" "0" "" []).2
    ⟨[1, 2], false⟩ 0 (by decide) (by decide)
  rw [h]
  decide

/-- Claim C4: an append to an existing upload whose parsed client offset
differs from the server offset leaves the store untouched and answers
with the OffsetConflict outcome (status 409) carrying the server's
authoritative offset and completion state. -/
theorem offsetConflict_frame (store : Store) (id oh ch : String) (body : List Nat)
    (u : Upload) (c : Int) (hu : Store.find store id = some u)
    (hc : getUploadOffset oh = some c) (hne : (u.bytes.length : Int) ≠ c) :
    (UploadAppendingHandler store id oh ch body).2 = store ∧
    (UploadAppendingHandler store id oh ch body).1.outcome = .offsetConflict ∧
    (UploadAppendingHandler store id oh ch body).1.headerOffset
      = some (u.bytes.length : Int) ∧
    (UploadAppendingHandler store id oh ch body).1.headerComplete
      = some (!u.markerPresent) ∧
    (UploadAppendingHandler store id oh ch body).1.status = 409 := by
  simp [UploadAppendingHandler, hu, hc, hne]

/-- Claim C4 witness: a conflicting append (client offset 1, server
offset 3) against a 3-byte incomplete upload changes nothing and reports
the server state. -/
theorem offsetConflict_frame_witness :
    (UploadAppendingHandler [("w4", ⟨[7, 8, 9], true⟩)] "w4" "1" "?1" [5]).2
      = [("w4", ⟨[7, 8, 9], true⟩)] ∧
    (UploadAppendingHandler [("w4", ⟨[7, 8, 9], true⟩)] "w4" "1" "?1" [5]).1.outcome
      = .offsetConflict ∧
    (UploadAppendingHandler [("w4", ⟨[7, 8, 9], true⟩)] "w4" "1" "?1" [5]).1.headerOffset
      = some 3 := by
  have h := offsetConflict_frame [("w4", ⟨[7, 8, 9], true⟩)] "w4" "1" "?1" [5]
    ⟨[7, 8, 9], true⟩ 1 (by decide) (by decide) (by decide)
  exact ⟨h.1, h.2.1, h.2.2.1⟩

/-- Claim C3 counterexample: the claim says a PATCH with an absent or
unparseable `Upload-Offset` header yields ValidationError before any
storage access. On an existing upload with an absent header, the code
does yield the 400 outcome but only after `loadUpload` has opened the
byte storage; and on a missing id with the same absent header the
outcome is NotFound, not ValidationError, because the storage lookup
runs first. -/
theorem validationError_not_before_storage :
    (UploadAppendingHandler [("a1", ⟨[], true⟩)] "a1" "" "" []).1.outcome
      = .validationError ∧
    (UploadAppendingHandler [("a1", ⟨[], true⟩)] "a1" "" "" []).1.storageLoaded
      = true ∧
    (UploadAppendingHandler [] "a1" "" "" []).1.outcome = .notFound := by
  decide

/-- Claim C3 (amended): the upload storage is loaded first; for an
existing upload an absent/unparseable `Upload-Offset` header then yields
the 400 ValidationError outcome with the store unchanged (for a missing
id the NotFound outcome takes precedence). -/
theorem validationError_after_load (store : Store) (id oh ch : String)
    (body : List Nat) (u : Upload) (hu : Store.find store id = some u)
    (hc : getUploadOffset oh = none) :
    (UploadAppendingHandler store id oh ch body).1.outcome = .validationError ∧
    (UploadAppendingHandler store id oh ch body).1.status = 400 ∧
    (UploadAppendingHandler store id oh ch body).1.storageLoaded = true ∧
    (UploadAppendingHandler store id oh ch body).2 = store := by
  simp [UploadAppendingHandler, hu, hc]

/-- Claim C3 witness: existing empty upload, absent header. -/
theorem validationError_after_load_witness :
    (UploadAppendingHandler [("a2", ⟨[3], true⟩)] "a2" "" "" [1]).1.outcome
      = .validationError ∧
    (UploadAppendingHandler [("a2", ⟨[3], true⟩)] "a2" "" "" [1]).2
      = [("a2", ⟨[3], true⟩)] := by
  have h := validationError_after_load [("a2", ⟨[3], true⟩)] "a2" "" "" [1]
    ⟨[3], true⟩ (by decide) (by decide)
  exact ⟨h.1, h.2.2.2⟩

/-- Claim C5 counterexample: the claim says every append to a complete
upload returns AlreadyComplete. On a complete upload (marker absent,
2 bytes) an append with stale client offset 0 returns OffsetConflict
instead, because the offset check runs before the completion check. -/
theorem complete_stale_append_not_alreadyComplete :
    (loadUpload [("d2", ⟨[1, 2], false⟩)] "d2").2.1 = true ∧
    (UploadAppendingHandler [("d2", ⟨[1, 2], false⟩)] "d2" "0" "" [9]).1.outcome
      = .offsetConflict ∧
    (UploadAppendingHandler [("d2", ⟨[1, 2], false⟩)] "d2" "0" "" [9]).1.outcome
      ≠ .alreadyComplete := by
  decide

/-- Claim C5 (amended): once an upload is complete (marker absent), no
append mutates the store — its bytes, offset, and marker are frozen —
and an append whose parsed client offset equals the server offset
returns AlreadyComplete (a differing offset returns OffsetConflict and
an unparseable header ValidationError). -/
theorem complete_upload_immutable (store : Store) (id oh ch : String)
    (body : List Nat) (u : Upload) (hu : Store.find store id = some u)
    (hm : u.markerPresent = false) :
    (UploadAppendingHandler store id oh ch body).2 = store ∧
    (∀ c, getUploadOffset oh = some c → (u.bytes.length : Int) = c →
      (UploadAppendingHandler store id oh ch body).1.outcome = .alreadyComplete) := by
  cases hc : getUploadOffset oh with
  | none =>
      refine ⟨by simp [UploadAppendingHandler, hu, hc], ?_⟩
      intro c h
      simp [hc] at h
  | some c0 =>
      by_cases hne : (u.bytes.length : Int) ≠ c0
      · refine ⟨by simp [UploadAppendingHandler, hu, hc, hne], ?_⟩
        intro c h heq
        cases h
        exact absurd heq hne
      · refine ⟨by simp [UploadAppendingHandler, hu, hc, hne, hm], ?_⟩
        intro c h heq
        simp [UploadAppendingHandler, hu, hc, hne, hm]

/-- Claim C5 witness: complete upload, matching offset 2: the store is
unchanged and the outcome is AlreadyComplete. -/
theorem complete_upload_immutable_witness :
    (UploadAppendingHandler [("d3", ⟨[1, 2], false⟩)] "d3" "2" "?1" [9]).2
      = [("d3", ⟨[1, 2], false⟩)] ∧
    (UploadAppendingHandler [("d3", ⟨[1, 2], false⟩)] "d3" "2" "?1" [9]).1.outcome
      = .alreadyComplete := by
  have h := complete_upload_immutable [("d3", ⟨[1, 2], false⟩)] "d3" "2" "?1" [9]
    ⟨[1, 2], false⟩ (by decide) (by decide)
  exact ⟨h.1, h.2 2 (by decide) (by decide)⟩

/-- Claim C6: a create on a fresh id persists exactly the request body,
reports as `Upload-Offset` the byte length read back from storage after
the copy (so it equals the number of bytes persisted), and reports
complete=true with the incomplete marker removed exactly when the client
sent `Upload-Complete: ?1` (marker present exactly when it did not). -/
theorem create_offset_read_back (store : Store) (uploadId : String) (tls : Bool)
    (host path ih ch : String) (body : List Nat)
    (hnew : Store.find store uploadId = none) :
    Store.find (UploadCreationHandler store uploadId tls host path ih ch body).2 uploadId
      = some ⟨body, !getUploadComplete ch⟩ ∧
    (UploadCreationHandler store uploadId tls host path ih ch body).1.headerOffset
      = (body.length : Int) ∧
    (UploadCreationHandler store uploadId tls host path ih ch body).1.headerComplete
      = getUploadComplete ch := by
  refine ⟨?_, ?_, ?_⟩
  · simp [UploadCreationHandler, hnew, Store.find_set_self]
  · simp [UploadCreationHandler, hnew]
  · simp [UploadCreationHandler]

/-- Claim C6 witness: fresh id, 2-byte body, completion signalled. -/
theorem create_offset_read_back_witness :
    Store.find (UploadCreationHandler [] "n1" false "h" "/up" "" "?1" [4, 5]).2 "n1"
      = some ⟨[4, 5], false⟩ ∧
    (UploadCreationHandler [] "n1" false "h" "/up" "" "?1" [4, 5]).1.headerOffset = 2 ∧
    (UploadCreationHandler [] "n1" false "h" "/up" "" "?1" [4, 5]).1.headerComplete
      = true := by
  have h := create_offset_read_back [] "n1" false "h" "/up" "" "?1" [4, 5] (by decide)
  exact ⟨h.1, h.2.1, h.2.2⟩

/-- Claim C7: every create request is answered with a success-class final
status (Go's implicit `200 OK`, in the 2xx class that contains 201), a
`Location` header holding the new upload's URL, and `Upload-Offset` /
`Upload-Complete` headers that match the upload's final stored state. -/
theorem create_response_status_and_headers (store : Store) (uploadId : String)
    (tls : Bool) (host path ih ch : String) (body : List Nat) :
    (UploadCreationHandler store uploadId tls host path ih ch body).1.status = 200 ∧
    (UploadCreationHandler store uploadId tls host path ih ch body).1.status / 100 = 2 ∧
    (UploadCreationHandler store uploadId tls host path ih ch body).1.location
      = getUrl tls host path ++ uploadId ∧
    ∃ u, Store.find (UploadCreationHandler store uploadId tls host path ih ch body).2 uploadId
        = some u ∧
      (UploadCreationHandler store uploadId tls host path ih ch body).1.headerOffset
        = (u.bytes.length : Int) ∧
      (UploadCreationHandler store uploadId tls host path ih ch body).1.headerComplete
        = !u.markerPresent := by
  refine ⟨rfl, ?_, rfl, ?_⟩
  · simp [UploadCreationHandler]
  · refine ⟨_, Store.find_set_self _ _ _, rfl, ?_⟩
    simp [UploadCreationHandler]

/-- Claim C8: when byte storage for `id` is present, `loadUpload` reports
exists=true, the offset equal to the stored byte length, and a complete
flag that is true exactly when the incomplete marker is absent. -/
theorem loadUpload_present (store : Store) (id : String) (u : Upload)
    (hu : Store.find store id = some u) :
    loadUpload store id = (true, !u.markerPresent, (u.bytes.length : Int)) ∧
    ((loadUpload store id).2.1 = true ↔ u.markerPresent = false) := by
  refine ⟨by simp [loadUpload, hu], ?_⟩
  simp [loadUpload, hu]

/-- Claim C8 witness: 1-byte upload with the marker present loads as
(exists, incomplete, offset 1). -/
theorem loadUpload_present_witness :
    loadUpload [("q1", ⟨[5], true⟩)] "q1" = (true, false, 1) := by
  exact (loadUpload_present [("q1", ⟨[5], true⟩)] "q1" ⟨[5], true⟩ (by decide)).1

/-- Claim C9 counterexample: the claim says creation fails with an
AllocationError when the id already exists. Instead, a create on an
existing id (old bytes `[5, 6, 7]`, body `[1]`) completes normally
(status 200) and reuses the existing byte storage, overwriting it from
position 0: the stored bytes become `[1, 6, 7]` and the reported offset
is the old length 3. -/
theorem create_existing_id_no_failure :
    (UploadCreationHandler [("e1", ⟨[5, 6, 7], true⟩)] "e1" false "h" "/" "" "" [1]).1.status
      = 200 ∧
    Store.find
        (UploadCreationHandler [("e1", ⟨[5, 6, 7], true⟩)] "e1" false "h" "/" "" "" [1]).2 "e1"
      = some ⟨[1, 6, 7], true⟩ ∧
    (UploadCreationHandler [("e1", ⟨[5, 6, 7], true⟩)] "e1" false "h" "/" "" "" [1]).1.headerOffset
      = 3 := by
  decide

/-- Claim C9 (amended): creation never fails because the id exists —
`O_CREATE` without `O_EXCL` opens the existing byte storage, the body
overwrites it from position 0 (old bytes beyond the body length
survive), and a fresh incomplete marker is written; uniqueness relies
solely on random UUID generation. -/
theorem create_existing_id_reuses_storage (store : Store) (uploadId : String)
    (tls : Bool) (host path ih ch : String) (body : List Nat) (u : Upload)
    (hu : Store.find store uploadId = some u) :
    (UploadCreationHandler store uploadId tls host path ih ch body).1.status = 200 ∧
    Store.find (UploadCreationHandler store uploadId tls host path ih ch body).2 uploadId
      = some ⟨body ++ u.bytes.drop body.length, !getUploadComplete ch⟩ := by
  refine ⟨rfl, ?_⟩
  simp [UploadCreationHandler, hu, Store.find_set_self]

/-- Claim C9 witness: same concrete reuse as a direct application. -/
theorem create_existing_id_reuses_storage_witness :
    Store.find
        (UploadCreationHandler [("e2", ⟨[5, 6], false⟩)] "e2" true "h" "/" "" "?1" [9]).2 "e2"
      = some ⟨[9, 6], false⟩ := by
  exact (create_existing_id_reuses_storage [("e2", ⟨[5, 6], false⟩)] "e2" true "h" "/" "" "?1" [9]
    ⟨[5, 6], false⟩ (by decide)).2

/-- Claim C10: a negative `Upload-Offset` header parses successfully
(never the 400 ValidationError path), and against an existing,
incomplete upload it always yields OffsetConflict (status 409) carrying
the server's offset, since a stored byte length is never negative. -/
theorem negative_offset_header_conflicts (store : Store) (id oh ch : String)
    (body : List Nat) (u : Upload) (c : Int)
    (hu : Store.find store id = some u) (hm : u.markerPresent = true)
    (hc : getUploadOffset oh = some c) (hneg : c < 0) :
    (UploadAppendingHandler store id oh ch body).1.outcome = .offsetConflict ∧
    (UploadAppendingHandler store id oh ch body).1.outcome ≠ .validationError ∧
    (UploadAppendingHandler store id oh ch body).1.status = 409 ∧
    (UploadAppendingHandler store id oh ch body).1.headerOffset
      = some (u.bytes.length : Int) := by
  have hne : (u.bytes.length : Int) ≠ c := by
    have h0 : (0 : Int) ≤ (u.bytes.length : Int) := Int.natCast_nonneg _
    omega
  simp [UploadAppendingHandler, hu, hc, hne]

/-- Claim C10 witness: `Upload-Offset: -1` parses to -1, and against an
existing, incomplete 1-byte upload the append reports OffsetConflict
with the server offset 1. -/
theorem negative_offset_header_conflicts_witness :
    getUploadOffset "-1" = some (-1) ∧
    (UploadAppendingHandler [("g1", ⟨[9], true⟩)] "g1" "-1" "" [2]).1.outcome
      = .offsetConflict ∧
    (UploadAppendingHandler [("g1", ⟨[9], true⟩)] "g1" "-1" "" [2]).1.headerOffset
      = some 1 := by
  have h := negative_offset_header_conflicts [("g1", ⟨[9], true⟩)] "g1" "-1" "" [2]
    ⟨[9], true⟩ (-1) (by decide) (by decide) (by decide) (by decide)
  exact ⟨by decide, h.1, h.2.2.2⟩
